import Mathlib

/-!
Verification of the gocharting-sdk-demo repository: the demo datafeed
adapter (spec §4.1, the implementation file `src/utils/chart-datafeed.ts`
is not part of the sources, so the adapter is modelled from the spec) and
the `ChartSDK` React component (`src/components/ChartSDK.tsx`, translated
from the source).
-/

namespace GoDemo

/-! ## Datafeed data model -/

/-- Modelled from the spec: `SymbolInfo` (spec §3) identifies a tradable
instrument by name, exchange and pricing precision; the implementation in
`src/utils/chart-datafeed.ts` is missing from the sources. -/
structure SymbolInfo where
  name : String
  fullName : String
  description : String
  exchange : String
  pricescale : Nat
deriving Repr, DecidableEq

/-- Modelled from the spec: the "small static symbol catalog" of
`src/utils/chart-datafeed.ts` (spec §4.1), with entries consistent with the
`BYBIT:FUTURE:BTCUSDT` symbol the component requests. -/
def symbolCatalog : List SymbolInfo :=
  [ ⟨"BTCUSDT", "BYBIT:FUTURE:BTCUSDT", "Bitcoin / Tether", "BYBIT", 100⟩,
    ⟨"ETHUSDT", "BYBIT:FUTURE:ETHUSDT", "Ethereum / Tether", "BYBIT", 100⟩,
    ⟨"SOLUSDT", "BYBIT:FUTURE:SOLUSDT", "Solana / Tether", "BYBIT", 1000⟩ ]

/-- Modelled from the spec: one OHLCV sample at a timestamp (spec §3);
prices are in integer ticks, timestamps in whole seconds. -/
structure Bar where
  time : Nat
  openPrice : Nat
  highPrice : Nat
  lowPrice : Nat
  closePrice : Nat
  volume : Nat
deriving Repr, DecidableEq

/-! ## resolveSymbol -/

/-- A single invocation of one of the two callbacks handed to
`resolveSymbol`: the success callback carrying a `SymbolInfo`, or the error
callback carrying a human-readable reason string. -/
inductive ResolveEvent where
  | success (info : SymbolInfo)
  | failure (reason : String)
deriving Repr, DecidableEq

/-- Whether a catalog entry answers to the requested textual identifier
(either the short name or the exchange-qualified full name). -/
def answersTo (symbolName : String) (s : SymbolInfo) : Bool :=
  s.name == symbolName || s.fullName == symbolName

/-- Modelled from the spec: `resolveSymbol` of `src/utils/chart-datafeed.ts`
(spec §4.1) looks the name up in the static catalog and reports the result
through the success/failure callback pair; the returned list is the trace of
callback invocations, in order. Unknown symbols are signalled through the
error callback with a human-readable reason, never by throwing. -/
def resolveSymbol (catalog : List SymbolInfo) (symbolName : String) :
    List ResolveEvent :=
  match catalog.find? (answersTo symbolName) with
  | some info => [ResolveEvent.success info]
  | none => [ResolveEvent.failure ("Symbol not found: " ++ symbolName)]

/-! ## getBars -/

/-- Modelled from the spec: the bar resolutions the demo adapter supports
(spec glossary: "the time granularity of bars (e.g., daily, hourly)"),
mapped to their length in seconds; `none` means unsupported. -/
def resolutionSeconds : String → Option Nat
  | "1" => some 60
  | "5" => some 300
  | "15" => some 900
  | "30" => some 1800
  | "60" => some 3600
  | "1D" => some 86400
  | _ => none

/-- First demo-series timestamp (seconds). -/
def demoBase : Nat := 1700000000

/-- Number of bars in the generated demo series. -/
def numDemoBars : Nat := 500

/-- Modelled from the spec: the i-th generated demo bar for a resolution of
`sec` seconds; deterministic pseudo-varied OHLCV values at timestamp
`demoBase + i * sec`. -/
def demoBar (sec : Nat) (i : Nat) : Bar :=
  let o := 40000 + (i * 37) % 400
  let c := 40000 + (i * 53) % 400
  { time := demoBase + i * sec
    openPrice := o
    highPrice := max o c + 25
    lowPrice := min o c - 25
    closePrice := c
    volume := 1000 + (i * 17) % 900 }

/-- Modelled from the spec: the full demo bar series for a resolution of
`sec` seconds, ascending by timestamp. -/
def demoSeries (sec : Nat) : List Bar :=
  (List.range numDemoBars).map (demoBar sec)

/-- Result of a historical-bars request: an ordered bar sequence, or the
explicit "no data" marker (spec §4.1). -/
inductive BarsResult where
  | ok (bars : List Bar)
  | noData
deriving Repr, DecidableEq

/-- The bars carried by a `BarsResult` (`[]` for the "no data" marker). -/
def BarsResult.bars : BarsResult → List Bar
  | .ok bs => bs
  | .noData => []

/-- Modelled from the spec: `getBars` of `src/utils/chart-datafeed.ts`
(spec §4.1) returns the demo-series bars whose timestamps fall within the
half-open range `[fromT, toT)`; an unsupported resolution yields the
explicit "no data" marker instead of an exception. -/
def getBars (resolution : String) (fromT toT : Nat) : BarsResult :=
  match resolutionSeconds resolution with
  | none => BarsResult.noData
  | some sec =>
      BarsResult.ok
        ((demoSeries sec).filter (fun b => fromT ≤ b.time && b.time < toT))

/-! ## searchSymbols -/

/-- Lower-cased character list of a string, for case-insensitive matching. -/
def lowerChars (s : String) : List Char :=
  s.data.map Char.toLower

/-- Whether `needle` occurs at the head of `hay`. -/
def leadsWith : List Char → List Char → Bool
  | [], _ => true
  | _ :: _, [] => false
  | a :: as, b :: bs => a == b && leadsWith as bs

/-- Whether `needle` occurs contiguously anywhere inside `hay`. -/
def occursIn (needle : List Char) : List Char → Bool
  | [] => leadsWith needle []
  | b :: bs => leadsWith needle (b :: bs) || occursIn needle bs

/-- Case-insensitive substring test on strings. -/
def containsCI (hay needle : String) : Bool :=
  occursIn (lowerChars needle) (lowerChars hay)

/-- The searchable text of a catalog entry. -/
def symbolText (s : SymbolInfo) : String :=
  s.name ++ " " ++ s.fullName ++ " " ++ s.description

/-- Whether a catalog entry matches a search query case-insensitively. -/
def matchesQuery (query : String) (s : SymbolInfo) : Bool :=
  containsCI (symbolText s) query

/-- Bound on the number of search matches returned (spec §4.1: "at most a
bounded number of matches"). -/
def maxSearchResults : Nat := 30

/-- Modelled from the spec: `searchSymbols` of `src/utils/chart-datafeed.ts`
(spec §4.1): case-insensitive substring match over the static catalog,
capped at `maxSearchResults` matches; an empty result, not an error, when
nothing matches. -/
def searchSymbols (catalog : List SymbolInfo) (query : String) :
    List SymbolInfo :=
  (catalog.filter (matchesQuery query)).take maxSearchResults

/-! ## Subscriptions, destroy -/

/-- Modelled from the spec: the mutable state of the adapter instance in
`src/utils/chart-datafeed.ts`: the registry of live-update subscriptions
(subscription id paired with its timer id) plus a counter producing fresh
timer ids. -/
structure AdapterState where
  subs : List (String × Nat)
  nextTimerId : Nat
deriving Repr, DecidableEq

/-- The adapter state right after construction: no subscriptions. -/
def initialAdapter : AdapterState := ⟨[], 0⟩

/-- Number of active timers registered for one subscription id. -/
def activeTimersFor (st : AdapterState) (subId : String) : Nat :=
  st.subs.countP (fun p => p.1 == subId)

/-- Total number of active timers held by the adapter. -/
def activeTimerCount (st : AdapterState) : Nat :=
  st.subs.length

/-- Modelled from the spec: `subscribeBars` of `src/utils/chart-datafeed.ts`
(spec §4.1) registers a periodic tick timer for a subscription id;
re-subscribing with the same id clears the previous timer and replaces the
registration rather than duplicating it. -/
def subscribeBars (st : AdapterState) (subId : String) : AdapterState :=
  { subs := (subId, st.nextTimerId) :: st.subs.filter (fun p => p.1 != subId)
    nextTimerId := st.nextTimerId + 1 }

/-- Modelled from the spec: `unsubscribeBars` of
`src/utils/chart-datafeed.ts` (spec §4.1) cancels the timer registered for
the given id; an unknown id is ignored. -/
def unsubscribeBars (st : AdapterState) (subId : String) : AdapterState :=
  { st with subs := st.subs.filter (fun p => p.1 != subId) }

/-- Modelled from the spec: `destroy` of `src/utils/chart-datafeed.ts`
(spec §4.1) cancels every outstanding timer and releases cached state;
calling it again is a no-op. -/
def destroy (st : AdapterState) : AdapterState :=
  { st with subs := [] }

/-! ## ChartSDK component (`src/components/ChartSDK.tsx`)

The component's environment abstracts the opaque external collaborators:
whether the SDK module and the container element are available, and whether
each external call throws. Each `try`/`catch` of the source is translated to
a `match` on an `Except`-valued raw call. -/

/-- The external conditions `ChartSDK.tsx` reacts to: availability of the
SDK module and of the container element, and whether each external SDK call
(`createChart`, `setBrokerAccounts`, `remove`) throws. -/
structure Env where
  sdkAvailable : Bool
  containerAvailable : Bool
  createChartFails : Bool
  setBrokerFails : Bool
  removeFails : Bool
deriving Repr, DecidableEq

/-- One demo account record (`currentAccountList` entry, ChartSDK.tsx
lines 16-23). -/
structure Account where
  id : String
  name : String
  balance : Nat
  currency : String
deriving Repr, DecidableEq

/-- The broker snapshot shape handed to `setBrokerAccounts`
(`demoBrokerData`, ChartSDK.tsx lines 51-56). Order, trade and position
records are opaque to this component; they are modelled as strings. -/
structure BrokerSnapshot where
  accountList : List Account
  orderBook : List String
  tradeBook : List String
  positions : List String
deriving Repr, DecidableEq

/-- `currentAccountList.current` (ChartSDK.tsx lines 16-23). -/
def currentAccountList : List Account :=
  [⟨"demo-account-1", "Demo Trading Account", 100000, "USDT"⟩]

/-- `currentOrderBook.current` (ChartSDK.tsx line 24). -/
def currentOrderBook : List String := []

/-- `currentTradeBook.current` (ChartSDK.tsx line 25). -/
def currentTradeBook : List String := []

/-- `currentPositions.current` (ChartSDK.tsx line 26). -/
def currentPositions : List String := []

/-- The `demoBrokerData` bundle built inside `setupDemoBrokerData`
(ChartSDK.tsx lines 51-56). -/
def demoBrokerData : BrokerSnapshot :=
  { accountList := currentAccountList
    orderBook := currentOrderBook
    tradeBook := currentTradeBook
    positions := currentPositions }

/-- Raw external call `chartInstance.setBrokerAccounts(...)`: throws exactly
when the environment says it does. -/
def setBrokerAccountsCall (env : Env) (_snap : BrokerSnapshot) :
    Except String Unit :=
  if env.setBrokerFails then Except.error "broker error" else Except.ok ()

/-- Raw external call `GoChartingSDK.createChart(...)` (ChartSDK.tsx
lines 87-106): throws exactly when the environment says it does. -/
def createChartCall (env : Env) : Except String Unit :=
  if env.createChartFails then Except.error "create failed" else Except.ok ()

/-- Raw external call `widgetRef.current.remove()` (ChartSDK.tsx line 39):
throws exactly when the environment says it does. -/
def removeCall (env : Env) : Except String Unit :=
  if env.removeFails then Except.error "remove failed" else Except.ok ()

/-- `setupDemoBrokerData` (ChartSDK.tsx lines 48-66), as seen across the
SDK boundary: the result is `ok` with the status string the call leaves
behind; an `error` result would mean an exception escaped. The source wraps
`setBrokerAccounts` in `try`/`catch`, so the failure branch still yields
`ok` with the failure status. -/
def setupDemoBrokerDataEx (env : Env) : Except String String :=
  match setBrokerAccountsCall env demoBrokerData with
  | Except.ok _ => Except.ok "🏦 Demo trading data loaded"
  | Except.error _ => Except.ok "❌ Failed to load trading data"

/-- `initializeChart` (ChartSDK.tsx lines 68-111), as seen across the SDK
boundary: `ok (some s)` when the call returns after setting status `s`,
`ok none` when chart creation was started (status set later by `onReady`);
`error` would mean an exception escaped. The `createChart` call is wrapped
in `try`/`catch` in the source. -/
def initChartEx (env : Env) : Except String (Option String) :=
  if !env.sdkAvailable then Except.ok (some "GoCharting SDK not available")
  else if !env.containerAvailable then
    Except.ok (some "Chart container not available")
  else
    match createChartCall env with
    | Except.ok _ => Except.ok none
    | Except.error _ => Except.ok (some "Failed to initialize chart")

/-- The `useEffect` cleanup (ChartSDK.tsx lines 34-44), as seen across the
boundary: clears the timer, then removes the widget if present; the
`remove()` call is wrapped in `try`/`catch` (the error is only logged), so
an `error` result would mean an exception escaped. -/
def cleanupEx (env : Env) (widget : Option Nat) : Except String Unit :=
  match widget with
  | none => Except.ok ()
  | some _ =>
      match removeCall env with
      | Except.ok _ => Except.ok ()
      | Except.error _ => Except.ok ()

/-- Whether an `Except` result is a normal return (no escaped exception). -/
def exceptOk {ε α : Type} : Except ε α → Bool
  | Except.ok _ => true
  | Except.error _ => false

/-! ### Component lifecycle state machine

`ChartSDK.tsx` mounts by arming a 100 ms timer that will run
`initializeChart` (lines 28-32); the effect cleanup clears the timer and
removes any created widget (lines 34-44); the SDK fires `onReady` once after
a successful `createChart`, upon which the component stores the widget and
applies the demo broker data (lines 101-105). -/

/-- The events that can reach the mounted component. -/
inductive CEvent where
  | timerFire
  | onReadyFire
  | teardown
deriving Repr, DecidableEq

/-- The component's mutable state: whether the deferred-initialization
timer is still armed, whether a `createChart` call is awaiting its
`onReady`, the stored widget reference, the status text, how many times
`initializeChart` has run, and the list of snapshots passed to
`setBrokerAccounts` so far. -/
structure CState where
  timerActive : Bool
  chartPending : Bool
  widget : Option Nat
  status : String
  initCalls : Nat
  brokerCalls : List BrokerSnapshot
deriving Repr, DecidableEq

/-- State right after mount (ChartSDK.tsx lines 11, 28-32): timer armed,
nothing created yet. -/
def mountState : CState :=
  { timerActive := true
    chartPending := false
    widget := none
    status := "Initializing chart..."
    initCalls := 0
    brokerCalls := [] }

/-- Outcome of one `initializeChart` run (ChartSDK.tsx lines 68-111): the
status update it performs (if any) and whether a `createChart` call was
successfully started (so that `onReady` is pending). -/
def initOutcome (env : Env) : Option String × Bool :=
  if !env.sdkAvailable then (some "GoCharting SDK not available", false)
  else if !env.containerAvailable then
    (some "Chart container not available", false)
  else
    match createChartCall env with
    | Except.ok _ => (none, true)
    | Except.error _ => (some "Failed to initialize chart", false)

/-- Applies one `initializeChart` run to the component state. -/
def applyInit (env : Env) (st : CState) : CState :=
  { st with
    status := (initOutcome env).1.getD st.status
    chartPending := st.chartPending || (initOutcome env).2 }

/-- One step of the component lifecycle. `timerFire` runs
`initializeChart` only if the timer is still armed (clearTimeout semantics,
lines 30 and 35); `onReadyFire` is only deliverable while a `createChart`
call is awaiting its once-only `onReady` (external contract, spec §6), and
then stores the widget, sets the loaded status and applies the broker data
(lines 101-105 and 48-66); `teardown` clears the timer and removes the
widget (lines 34-44). -/
def step (env : Env) (st : CState) : CEvent → CState
  | CEvent.timerFire =>
      if st.timerActive then
        applyInit env
          { st with timerActive := false, initCalls := st.initCalls + 1 }
      else st
  | CEvent.onReadyFire =>
      if st.chartPending then
        { st with
          chartPending := false
          widget := some 0
          status := match setupDemoBrokerDataEx env with
            | Except.ok s => s
            | Except.error _ => st.status
          brokerCalls := st.brokerCalls ++ [demoBrokerData] }
      else st
  | CEvent.teardown =>
      { st with timerActive := false, widget := none }

/-- Runs a sequence of lifecycle events from a state. -/
def runTrace (env : Env) (st : CState) (trace : List CEvent) : CState :=
  trace.foldl (step env) st

/-- Strictly ascending timestamps (hence sorted and duplicate-free). -/
def ascendingTimes (l : List Bar) : Prop :=
  List.Pairwise (fun a b => a.time < b.time) l

/-- A concrete environment in which every external call succeeds. -/
def envOk : Env := ⟨true, true, false, false, false⟩

/-- Lifecycle invariant: every broker snapshot delivered so far is the demo
bundle, and the number of deliveries plus the pending `onReady` and the
armed timer never exceeds one — so `setBrokerAccounts` runs at most once
per mount. -/
def CInv (st : CState) : Prop :=
  (∀ s ∈ st.brokerCalls, s = demoBrokerData) ∧
  st.brokerCalls.length + (if st.chartPending then 1 else 0) +
    (if st.timerActive then 1 else 0) ≤ 1

/-! ## Helper lemmas -/

theorem countP_key_filter_self (l : List (String × Nat)) (id : String) :
    List.countP (fun p => p.1 == id) (l.filter (fun p => p.1 != id)) = 0 := by
  refine List.countP_eq_zero.mpr ?_
  intro a ha hkey
  have hne := (List.mem_filter.mp ha).2
  simp only [bne_iff_ne, ne_eq, decide_eq_true_eq] at hne
  exact hne (by simpa using hkey)

theorem countP_key_filter_other (l : List (String × Nat)) (id id2 : String)
    (h : id2 ≠ id) :
    List.countP (fun p => p.1 == id2) (l.filter (fun p => p.1 != id)) =
      List.countP (fun p => p.1 == id2) l := by
  induction l with
  | nil => rfl
  | cons a l ih =>
      by_cases ha : a.1 = id2
      · have hk : (a.1 != id) = true := by
          simp [bne_iff_ne, ha, h]
        simp [List.filter_cons, hk, List.countP_cons, ha, ih, h]
      · by_cases hi : a.1 = id
        · simp [List.filter_cons, hi, List.countP_cons, ha, ih, Ne.symm h]
        · have hk : (a.1 != id) = true := by simp [bne_iff_ne, hi]
          simp [List.filter_cons, hk, List.countP_cons, ha, ih]

theorem resolveSymbol_length (catalog : List SymbolInfo) (name : String) :
    (resolveSymbol catalog name).length = 1 := by
  unfold resolveSymbol
  cases catalog.find? (answersTo name) <;> rfl

/-! ## Claim theorems -/

/-- C4: `subscribeBars` is idempotent per subscription id: subscribing
leaves exactly one active timer for that id, subscribing twice with the
same id still leaves exactly one active timer for it (the first
registration is replaced, not duplicated), and registrations for every
other id are untouched. -/
theorem subscribeBars_idempotent (st : AdapterState) (subId : String) :
    activeTimersFor (subscribeBars st subId) subId = 1 ∧
    activeTimersFor (subscribeBars (subscribeBars st subId) subId) subId = 1 ∧
    (∀ id2, id2 ≠ subId →
      activeTimersFor (subscribeBars st subId) id2 = activeTimersFor st id2) := by
  refine ⟨?_, ?_, ?_⟩
  · simp [activeTimersFor, subscribeBars, List.countP_cons,
      countP_key_filter_self]
  · simp [activeTimersFor, subscribeBars, List.countP_cons,
      countP_key_filter_self]
  · intro id2 h2
    simp [activeTimersFor, subscribeBars, List.countP_cons,
      countP_key_filter_other _ _ _ h2, Ne.symm h2]

/-- C4 witness: concrete double subscription on the freshly constructed
adapter leaves exactly one timer for the id. -/
theorem subscribeBars_idempotent_witness :
    activeTimersFor (subscribeBars (subscribeBars initialAdapter "sub-1") "sub-1")
      "sub-1" = 1 ∧
    activeTimersFor (subscribeBars initialAdapter "sub-1") "other" =
      activeTimersFor initialAdapter "other" :=
  ⟨(subscribeBars_idempotent initialAdapter "sub-1").2.1,
    (subscribeBars_idempotent initialAdapter "sub-1").2.2 "other" (by decide)⟩

/-- C5: `destroy` cancels every outstanding timer (zero active afterwards)
and is idempotent: a second call is a no-op, and as a total function it
raises no error. -/
theorem destroy_idempotent (st : AdapterState) :
    destroy (destroy st) = destroy st ∧
    activeTimerCount (destroy st) = 0 ∧
    (destroy st).subs = [] :=
  ⟨rfl, rfl, rfl⟩

/-- C6: `unsubscribeBars` on an unregistered id is a no-op (the state is
unchanged, and as a total function it raises no exception); on a registered
id it cancels exactly that id's timer, leaving every other id's
registrations untouched. -/
theorem unsubscribeBars_spec (st : AdapterState) (subId : String) :
    (activeTimersFor st subId = 0 → unsubscribeBars st subId = st) ∧
    activeTimersFor (unsubscribeBars st subId) subId = 0 ∧
    (∀ id2, id2 ≠ subId →
      activeTimersFor (unsubscribeBars st subId) id2 = activeTimersFor st id2) := by
  refine ⟨?_, ?_, ?_⟩
  · intro h0
    have hall := List.countP_eq_zero.mp h0
    have : st.subs.filter (fun p => p.1 != subId) = st.subs := by
      refine List.filter_eq_self.mpr ?_
      intro a ha
      have := hall a ha
      simpa [bne_iff_ne, ne_eq] using this
    cases st
    simp [unsubscribeBars, this]
  · exact countP_key_filter_self st.subs subId
  · intro id2 h2
    exact countP_key_filter_other st.subs subId id2 h2

/-- C6 witness: unsubscribing an id that was never subscribed from a
concrete one-subscription state changes nothing; unsubscribing the
registered id leaves zero timers for it. -/
theorem unsubscribeBars_spec_witness :
    unsubscribeBars (subscribeBars initialAdapter "sub-1") "ghost" =
      subscribeBars initialAdapter "sub-1" ∧
    activeTimersFor (unsubscribeBars (subscribeBars initialAdapter "sub-1")
      "sub-1") "sub-1" = 0 :=
  ⟨(unsubscribeBars_spec (subscribeBars initialAdapter "sub-1") "ghost").1
      (by decide),
    (unsubscribeBars_spec (subscribeBars initialAdapter "sub-1") "sub-1").2.1⟩

/-- C2: for a symbol the catalog knows (the first entry `find?` locates),
`resolveSymbol` invokes the success callback exactly once with that catalog
entry's metadata — the whole callback trace is that single invocation, so
no callback fires twice — and the delivered entry is a complete catalog
member matching the request; for an unknown symbol the whole trace is a
single error-callback invocation with a nonempty human-readable reason (no
success event, no partially-populated `SymbolInfo`), and being a total
function it never throws. -/
theorem resolveSymbol_spec (catalog : List SymbolInfo) (name : String) :
    (resolveSymbol catalog name).length = 1 ∧
    (∀ info, catalog.find? (answersTo name) = some info →
      resolveSymbol catalog name = [ResolveEvent.success info] ∧
      info ∈ catalog ∧ answersTo name info = true) ∧
    (catalog.find? (answersTo name) = none →
      resolveSymbol catalog name =
        [ResolveEvent.failure ("Symbol not found: " ++ name)] ∧
      0 < ("Symbol not found: " ++ name).length) := by
  refine ⟨resolveSymbol_length catalog name, ?_, ?_⟩
  · intro info hfind
    refine ⟨?_, List.mem_of_find?_eq_some hfind, List.find?_some hfind⟩
    unfold resolveSymbol
    rw [hfind]
  · intro hfind
    constructor
    · unfold resolveSymbol
      rw [hfind]
    · have hconst : ("Symbol not found: ").length = 18 := rfl
      have hlen : ("Symbol not found: " ++ name).length = 18 + name.length := by
        rw [String.length_append, hconst]
      omega

/-- C2 witness: resolving the known symbol `BTCUSDT` yields exactly one
success callback with the full catalog entry; resolving the unknown
`DOGEUSDT` yields exactly one error callback with a readable reason. -/
theorem resolveSymbol_spec_witness :
    resolveSymbol symbolCatalog "BTCUSDT" =
      [ResolveEvent.success
        ⟨"BTCUSDT", "BYBIT:FUTURE:BTCUSDT", "Bitcoin / Tether", "BYBIT", 100⟩] ∧
    resolveSymbol symbolCatalog "DOGEUSDT" =
      [ResolveEvent.failure "Symbol not found: DOGEUSDT"] :=
  ⟨((resolveSymbol_spec symbolCatalog "BTCUSDT").2.1
      ⟨"BTCUSDT", "BYBIT:FUTURE:BTCUSDT", "Bitcoin / Tether", "BYBIT", 100⟩
      (by decide)).1,
    ((resolveSymbol_spec symbolCatalog "DOGEUSDT").2.2 (by decide)).1⟩

/-- C3: the adapter's entry points are total functions of their inputs, so
no internal error escapes as an exception across the SDK boundary: an
unsupported resolution makes `getBars` return the explicit "no data" marker
rather than raising, and `resolveSymbol` always reports its outcome through
exactly one invocation of the success/failure callback channel. -/
theorem adapter_traps_errors (resolution : String) (fromT toT : Nat)
    (catalog : List SymbolInfo) (name : String)
    (h : resolutionSeconds resolution = none) :
    getBars resolution fromT toT = BarsResult.noData ∧
    (resolveSymbol catalog name).length = 1 := by
  constructor
  · unfold getBars
    rw [h]
  · exact resolveSymbol_length catalog name

/-- C3 witness: the weekly resolution `7W` is unsupported, and `getBars`
answers it with the "no data" marker; resolving an arbitrary name invokes
exactly one callback. -/
theorem adapter_traps_errors_witness :
    getBars "7W" 0 1000000000000 = BarsResult.noData ∧
    (resolveSymbol symbolCatalog "whatever").length = 1 :=
  ⟨(adapter_traps_errors "7W" 0 1000000000000 symbolCatalog "whatever"
      (by decide)).1,
    (adapter_traps_errors "7W" 0 1000000000000 symbolCatalog "whatever"
      (by decide)).2⟩

theorem resolutionSeconds_pos {r : String} {sec : Nat}
    (h : resolutionSeconds r = some sec) : 0 < sec := by
  unfold resolutionSeconds at h
  split at h
  all_goals first
    | exact Option.noConfusion h
    | (injection h with h2; omega)

theorem demoBar_time (sec i : Nat) : (demoBar sec i).time = demoBase + i * sec :=
  rfl

theorem demoSeries_ascending {sec : Nat} (hs : 0 < sec) :
    ascendingTimes (demoSeries sec) := by
  unfold ascendingTimes demoSeries
  rw [List.pairwise_map]
  refine (List.pairwise_lt_range numDemoBars).imp ?_
  intro a b hab
  rw [demoBar_time, demoBar_time]
  have := Nat.mul_lt_mul_of_pos_right hab hs
  omega

/-- C1: for every supported resolution and every half-open time range
`[fromT, toT)`, `getBars` returns a bar sequence (not the "no data"
marker) whose timestamps are strictly ascending — hence sorted with no
duplicates — and which contains exactly the demo-series bars whose
timestamps fall within the range: every returned bar is in range and every
in-range bar of the series is returned. -/
theorem getBars_range_sorted (resolution : String) (sec fromT toT : Nat)
    (h : resolutionSeconds resolution = some sec) :
    getBars resolution fromT toT ≠ BarsResult.noData ∧
    ascendingTimes (getBars resolution fromT toT).bars ∧
    (∀ b, b ∈ (getBars resolution fromT toT).bars ↔
      b ∈ demoSeries sec ∧ fromT ≤ b.time ∧ b.time < toT) := by
  have hg : getBars resolution fromT toT =
      BarsResult.ok
        ((demoSeries sec).filter (fun b => fromT ≤ b.time && b.time < toT)) := by
    unfold getBars
    rw [h]
  refine ⟨by rw [hg]; simp, ?_, ?_⟩
  · rw [hg]
    unfold ascendingTimes
    simp only [BarsResult.bars]
    exact List.Pairwise.sublist (List.filter_sublist _)
      (demoSeries_ascending (resolutionSeconds_pos h))
  · intro b
    rw [hg]
    simp only [BarsResult.bars, List.mem_filter, Bool.and_eq_true,
      decide_eq_true_eq, and_assoc]

/-- C1 witness: for the daily resolution and the concrete range covering
the first two demo days, the result is a bar sequence with strictly
ascending timestamps, and the very first demo bar is in it. -/
theorem getBars_range_sorted_witness :
    getBars "1D" 1700000000 1700172800 ≠ BarsResult.noData ∧
    ascendingTimes (getBars "1D" 1700000000 1700172800).bars ∧
    (demoBar 86400 0 ∈ (getBars "1D" 1700000000 1700172800).bars ↔
      demoBar 86400 0 ∈ demoSeries 86400 ∧
      1700000000 ≤ (demoBar 86400 0).time ∧ (demoBar 86400 0).time < 1700172800) :=
  ⟨(getBars_range_sorted "1D" 86400 1700000000 1700172800 rfl).1,
    (getBars_range_sorted "1D" 86400 1700000000 1700172800 rfl).2.1,
    (getBars_range_sorted "1D" 86400 1700000000 1700172800 rfl).2.2
      (demoBar 86400 0)⟩

/-- C7: `searchSymbols` returns only catalog entries that match the query
case-insensitively, capped at `maxSearchResults`; whenever the matches fit
under the cap the result contains exactly the matching entries; and when
nothing matches the result is the empty sequence (never an error — the
function is total). -/
theorem searchSymbols_spec (catalog : List SymbolInfo) (query : String) :
    (∀ s, s ∈ searchSymbols catalog query →
      s ∈ catalog ∧ matchesQuery query s = true) ∧
    (searchSymbols catalog query).length ≤ maxSearchResults ∧
    ((catalog.filter (matchesQuery query)).length ≤ maxSearchResults →
      ∀ s, s ∈ searchSymbols catalog query ↔
        s ∈ catalog ∧ matchesQuery query s = true) ∧
    ((∀ s ∈ catalog, matchesQuery query s = false) →
      searchSymbols catalog query = []) := by
  refine ⟨?_, ?_, ?_, ?_⟩
  · intro s hs
    have hmem : s ∈ catalog.filter (matchesQuery query) :=
      (List.take_sublist _ _).subset hs
    exact List.mem_filter.mp hmem
  · exact List.length_take_le _ _
  · intro hle s
    unfold searchSymbols
    rw [List.take_of_length_le hle, List.mem_filter]
  · intro hnone
    unfold searchSymbols
    have : catalog.filter (matchesQuery query) = [] := by
      refine List.filter_eq_nil_iff.mpr ?_
      intro a ha
      simp [hnone a ha]
    rw [this]
    rfl

/-- C7 witness: on the concrete catalog, searching `BTC` returns exactly
the Bitcoin entry and nothing else, and searching `zzz-no-match` returns
the empty sequence. -/
theorem searchSymbols_spec_witness :
    searchSymbols symbolCatalog "BTC" =
      [⟨"BTCUSDT", "BYBIT:FUTURE:BTCUSDT", "Bitcoin / Tether", "BYBIT", 100⟩] ∧
    searchSymbols symbolCatalog "zzz-no-match" = [] := by
  constructor
  · decide
  · exact (searchSymbols_spec symbolCatalog "zzz-no-match").2.2.2 (by decide)

theorem initCalls_frozen (env : Env) (trace : List CEvent) :
    ∀ st : CState, st.timerActive = false →
      (runTrace env st trace).initCalls = st.initCalls := by
  induction trace with
  | nil => intro st _; rfl
  | cons e tr ih =>
      intro st h
      have h1 : (step env st e).timerActive = false := by
        cases e with
        | timerFire => simp [step, h]
        | onReadyFire =>
            simp only [step]
            split <;> simp [h]
        | teardown => rfl
      have h2 : (step env st e).initCalls = st.initCalls := by
        cases e with
        | timerFire => simp [step, h]
        | onReadyFire =>
            simp only [step]
            split <;> rfl
        | teardown => rfl
      have := ih (step env st e) h1
      calc (runTrace env st (e :: tr)).initCalls
          = (runTrace env (step env st e) tr).initCalls := rfl
        _ = (step env st e).initCalls := this
        _ = st.initCalls := h2

/-- C8: no failure in the `ChartSDK` component is fatal. Whatever the
environment does — SDK module missing, container missing, `createChart`
throwing, `setBrokerAccounts` throwing, `remove` throwing on unmount —
`initializeChart`, `setupDemoBrokerData` and the effect cleanup all return
normally (every raw-call failure is caught locally and degrades to a status
message or a logged error); none of them lets an exception escape the
component. -/
theorem chartSDK_no_fatal (env : Env) (widget : Option Nat) :
    exceptOk (initChartEx env) = true ∧
    exceptOk (setupDemoBrokerDataEx env) = true ∧
    exceptOk (cleanupEx env widget) = true := by
  obtain ⟨sdk, cont, cc, sb, rm⟩ := env
  cases sdk <;> cases cont <;> cases cc <;> cases sb <;> cases rm <;>
    cases widget <;> exact ⟨rfl, rfl, rfl⟩

/-- C9: the teardown step clears the deferred-initialization timer and
removes any already-created chart instance, and afterwards
`initializeChart` is never invoked again: along every subsequent event
trace the number of `initializeChart` runs stays what it was at
teardown. -/
theorem teardown_cancels_init (env : Env) (st : CState) (trace : List CEvent) :
    (step env st CEvent.teardown).timerActive = false ∧
    (step env st CEvent.teardown).widget = none ∧
    (runTrace env (step env st CEvent.teardown) trace).initCalls =
      (step env st CEvent.teardown).initCalls :=
  ⟨rfl, rfl, initCalls_frozen env trace (step env st CEvent.teardown) rfl⟩

theorem step_preserves_CInv (env : Env) (st : CState) (e : CEvent)
    (h : CInv st) : CInv (step env st e) := by
  obtain ⟨hmem, hbudget⟩ := h
  obtain ⟨ta, cp, w, sts, ic, bc⟩ := st
  simp only [CInv] at hbudget ⊢
  cases e with
  | timerFire =>
      cases ta with
      | false => exact ⟨hmem, by simpa using hbudget⟩
      | true =>
          rw [if_pos rfl] at hbudget
          cases cp with
          | true =>
              rw [if_pos rfl] at hbudget
              exact absurd hbudget (by omega)
          | false =>
              rw [if_neg (by decide)] at hbudget
              have hb0 : bc.length = 0 := by omega
              refine ⟨?_, ?_⟩
              · intro s hs
                refine hmem s ?_
                simpa [step, applyInit] using hs
              · simp only [step, applyInit]
                cases h2 : (initOutcome env).2 <;> simp [hb0]
  | onReadyFire =>
      cases cp with
      | false => exact ⟨hmem, by simpa [step] using hbudget⟩
      | true =>
          rw [if_pos rfl] at hbudget
          cases ta with
          | true =>
              rw [if_pos rfl] at hbudget
              exact absurd hbudget (by omega)
          | false =>
              rw [if_neg (by decide)] at hbudget
              have hb0 : bc.length = 0 := by omega
              have hbe : bc = [] := List.length_eq_zero.mp hb0
              subst hbe
              refine ⟨?_, ?_⟩
              · intro s hs
                simpa [step] using hs
              · simp [step]
  | teardown =>
      refine ⟨?_, ?_⟩
      · intro s hs
        exact hmem s (by simpa [step] using hs)
      · simp only [step]
        cases cp <;> cases ta <;> simp_all

theorem runTrace_CInv (env : Env) (trace : List CEvent) :
    ∀ st : CState, CInv st → CInv (runTrace env st trace) := by
  induction trace with
  | nil => intro st h; exact h
  | cons e tr ih =>
      intro st h
      exact ih (step env st e) (step_preserves_CInv env st e h)

theorem mountState_CInv : CInv mountState := by
  constructor
  · intro s hs
    simp [mountState] at hs
  · simp [mountState, CInv]

/-- C10: along every event trace from mount, `setBrokerAccounts` is called
at most once, every snapshot it receives is exactly the fixed demo bundle
(one account `demo-account-1` named "Demo Trading Account" with balance
100000 USDT, and empty order book, trade book and positions — the record
lists are never mutated after construction), and no event other than the
`onReady` delivery ever adds a broker call. -/
theorem brokerData_once_fixed (env : Env) (trace : List CEvent) :
    (runTrace env mountState trace).brokerCalls.length ≤ 1 ∧
    (∀ s ∈ (runTrace env mountState trace).brokerCalls, s = demoBrokerData) ∧
    demoBrokerData =
      { accountList := [⟨"demo-account-1", "Demo Trading Account", 100000, "USDT"⟩]
        orderBook := []
        tradeBook := []
        positions := [] } ∧
    (∀ (st : CState) (e : CEvent), e ≠ CEvent.onReadyFire →
      (step env st e).brokerCalls = st.brokerCalls) := by
  have hinv := runTrace_CInv env trace mountState mountState_CInv
  obtain ⟨hmem, hbudget⟩ := hinv
  refine ⟨by omega, hmem, rfl, ?_⟩
  intro st e he
  cases e with
  | timerFire =>
      unfold step
      by_cases hta : st.timerActive <;> simp [hta, applyInit]
  | onReadyFire => exact absurd rfl he
  | teardown => rfl

/-- C10 witness: on the concrete all-success environment and the concrete
trace timer-fire, onReady, onReady, at most one broker call is recorded,
and a concrete teardown step adds no broker call. -/
theorem brokerData_once_fixed_witness :
    (runTrace envOk mountState
      [CEvent.timerFire, CEvent.onReadyFire, CEvent.onReadyFire]).brokerCalls.length ≤ 1 ∧
    (step envOk mountState CEvent.teardown).brokerCalls =
      mountState.brokerCalls :=
  ⟨(brokerData_once_fixed envOk
      [CEvent.timerFire, CEvent.onReadyFire, CEvent.onReadyFire]).1,
    (brokerData_once_fixed envOk []).2.2.2 mountState CEvent.teardown
      (by decide)⟩

end GoDemo
